import Mathlib

/-!
Shallow embedding of `httpclientutil/client.go` (package `httpclientutil`),
a client endpoint for a single persistent pipelined HTTP/1.1 connection.

The mutable `ClientConn` record is modelled as an immutable structure that
each operation transforms.  Capacity-one channels (`reqch`, `respch`) are
modelled as `Option` slots; the never-initialized `closech` field keeps the
three-valued channel state of a Go channel (nil / open / closed).  External
collaborators (the transport, the HTTP codec, context cancellation, the
select nondeterminism of the runtime) are modelled as explicit inputs to the
operations.  Operations additionally return a small event trace recording
the observable side effects (serialization onto the transport, channel
pushes, sticky-error stores) so that ordering properties can be stated.
-/

namespace HttpClientUtil

/-- Error values of the package: the sentinel errors declared at the top of
`client.go` plus families standing for errors produced by external
collaborators (context cancellation, request serialization, response
parsing). -/
inductive Err where
  | persistEOF        -- ErrPersistEOF
  | closedByUser      -- ErrClosed
  | pipelineErr       -- ErrPipeline
  | bodyWaitingRead   -- ErrBodyWaitingRead
  | bodyLeftData      -- ErrBodyLeftData
  | serverClosedConn  -- ErrServerClosedConn
  | errClosed         -- errClosed: "i/o operation on closed connection"
  | ctxErr (n : Nat)       -- a context cancellation / deadline error
  | externalErr (n : Nat)  -- a transport / codec error
deriving DecidableEq

/-- The `net.Conn` transport handle: only its identity and ownership matter
to this layer, the bytes flow through external collaborators. -/
structure Conn where
  id : Nat
deriving DecidableEq

/-- The `*bufio.Reader` buffered-input view over the transport. -/
structure Reader where
  src : Nat
deriving DecidableEq

/-- `bufio.NewReader(c)`: a fresh buffered view over the transport. -/
def newReader (c : Conn) : Reader := ⟨c.id⟩

/-- The fields of `*http.Request` this layer reads: `Method` (body-presence
rule in the read loop) and `Close` (connection-termination signal).  The
request context's cancellation is an input of `read`. -/
structure Request where
  method : String
  close : Bool
deriving DecidableEq

/-- The fields of `*http.Response` this layer reads: `StatusCode`,
`ContentLength` (an `int64`, `-1` when unknown) and `Close`.  The body
stream itself is handled through the drain outcome of the iteration. -/
structure Response where
  statusCode : Nat
  contentLength : Int
  close : Bool
deriving DecidableEq

/-- State of a Go channel used only as a signal: `closech` is declared in
`ClientConn` but never allocated by `NewClientConn`, so it starts nil;
`close` on a nil or already-closed channel panics. -/
inductive ChanState where
  | nilChan
  | opened
  | closedCh
deriving DecidableEq

/-- The `ClientConn` struct (client.go lines 23-33).  `reqch` and `respch`
are capacity-one channels, modelled as single slots.  The `writeReq`
strategy field only changes how the external serializer encodes the request
line, which is invisible at this layer, so it is not modelled. -/
structure ClientConn where
  conn : Option Conn
  r : Option Reader
  bodyReading : Bool
  re : Option Err
  we : Option Err
  reqch : Option Request
  respch : Option Response
  closech : ChanState
deriving DecidableEq

/-- `NewClientConn(c, r)` (client.go lines 35-48): wraps the transport,
creating a buffered reader when none is supplied; all error/flag fields
start unset.  Note that `closech` is NOT initialized by the constructor
(the struct literal omits it), so it remains a nil channel. -/
def NewClientConn (c : Conn) (r : Option Reader) : ClientConn :=
  { conn := some c
    r := some (r.getD (newReader c))
    bodyReading := false
    re := none
    we := none
    reqch := none
    respch := none
    closech := ChanState.nilChan }

/-- `Ping` (client.go lines 126-139): the liveness check.  Returns the
sticky read error if set, else the sticky write error if set, else the
"closed" error when the transport has been detached, else success
(`none`). -/
def Ping (cc : ClientConn) : Option Err :=
  match cc.re with
  | some e => some e
  | none =>
    match cc.we with
    | some e => some e
    | none => if cc.conn = none then some Err.errClosed else none

/-- `setReadError` (client.go lines 141-145): stores `err` into the sticky
read-error field unconditionally.  Every call site in the source passes a
non-nil error, so the argument type is `Err`. -/
def setReadError (e : Err) (cc : ClientConn) : ClientConn :=
  { cc with re := some e }

/-- `setBodyReading` (client.go lines 197-201). -/
def setBodyReading (flag : Bool) (cc : ClientConn) : ClientConn :=
  { cc with bodyReading := flag }

/-- `waitForBody` (client.go lines 64-68): reads the body-in-progress flag
under the lock. -/
def waitForBody (cc : ClientConn) : Bool := cc.bodyReading

/-- `Hijack` (client.go lines 107-115): returns the transport and buffered
reader and empties both fields. -/
def Hijack (cc : ClientConn) : (Option Conn × Option Reader) × ClientConn :=
  ((cc.conn, cc.r), { cc with conn := none, r := none })

/-- Result of `Close`: either a normal return carrying `c.Close()`'s result
(`none` for a nil error), or a runtime panic (`close` of a nil or closed
channel). -/
inductive CloseOut where
  | ret (e : Option Err)
  | panicked
deriving DecidableEq

/-- `Close` (client.go lines 117-124): hijacks the connection; if a
transport was still attached, closes it (the external `c.Close()` result is
the input `connCloseRes`); otherwise executes `close(cc.closech)`, which
panics unless `closech` is an open channel. -/
def Close (connCloseRes : Option Err) (cc : ClientConn) : ClientConn × CloseOut :=
  let h := Hijack cc
  match h.1.1 with
  | some _ => (h.2, CloseOut.ret connCloseRes)
  | none =>
    match h.2.closech with
    | ChanState.opened => ({ h.2 with closech := ChanState.closedCh }, CloseOut.ret none)
    | _ => (h.2, CloseOut.panicked)

/-- Observable side effects of one `write` call, in program order. -/
inductive WEv where
  | setWE (e : Err)   -- a store to the sticky write-error field
  | serialize         -- the call cc.writeReq(req, c) onto the transport
  | enqueue           -- cc.reqch <- req completed
  | blockedSend       -- cc.reqch <- req found the slot full and blocked
deriving DecidableEq

/-- Return value of `write`: the updated connection, the returned error
(`none` for success) and the event trace. -/
structure WriteOut where
  cc : ClientConn
  res : Option Err
  tr : List WEv
deriving DecidableEq

/-- `write` (client.go lines 70-94).  `wres` is the result of the external
serialization call `cc.writeReq(req, c)` (`none` on success).  Order, as in
the source: liveness check; body-in-progress check; preemptive
`we = ErrPersistEOF` when `req.Close`; serialization; on failure store the
error into `we` and return it; on success push onto `reqch`. -/
def write (wres : Option Err) (req : Request) (cc : ClientConn) : WriteOut :=
  match Ping cc with
  | some e => ⟨cc, some e, []⟩
  | none =>
    if waitForBody cc then ⟨cc, some Err.bodyWaitingRead, []⟩
    else
      let cc1 := if req.close then { cc with we := some Err.persistEOF } else cc
      let tr1 := if req.close then [WEv.setWE Err.persistEOF] else ([] : List WEv)
      match wres with
      | some e => ⟨{ cc1 with we := some e }, some e, tr1 ++ [WEv.serialize, WEv.setWE e]⟩
      | none =>
        match cc1.reqch with
        | none => ⟨{ cc1 with reqch := some req }, none, tr1 ++ [WEv.serialize, WEv.enqueue]⟩
        | some _ => ⟨cc1, none, tr1 ++ [WEv.serialize, WEv.blockedSend]⟩

/-- Result of parsing a response (`http.ReadResponse`) or of a completed
`read`: a structured response or an error. -/
inductive RespResult where
  | ok (resp : Response)
  | fail (e : Err)
deriving DecidableEq

/-- `read` (client.go lines 96-105): waits on the select between the
response slot and the request context.  `cancel = some e` means the
context's cancellation fired (with error `e`) and that select arm was
chosen before a response arrived; `cancel = none` means the response arm is
taken, blocking (`none` result) while the slot is empty. -/
def read (cancel : Option Err) (cc : ClientConn) : ClientConn × Option RespResult :=
  match cancel with
  | some e => (setReadError e cc, some (RespResult.fail e))
  | none =>
    match cc.respch with
    | some resp => ({ cc with respch := none }, some (RespResult.ok resp))
    | none => (cc, none)

/-- Which arm of the draining select (client.go lines 184-192) fires:
the body-drain outcome (`bodyEOF b`, where `b` is the boolean sent by the
`bodyEOFSignal` wrapper — `true` exactly when the body ended in `io.EOF`)
or the teardown channel. -/
inductive DrainOutcome where
  | bodyEOF (b : Bool)
  | teardown
deriving DecidableEq

/-- Environment inputs of one read-loop iteration: whether the readability
probe `cc.r.Peek(1)` succeeded, the result of `http.ReadResponse`, and the
drain-select outcome (consulted only when a body-bearing response was
published). -/
structure IterIn where
  peekOk : Bool
  parse : RespResult
  drain : DrainOutcome
deriving DecidableEq

/-- Observable side effects of one read-loop iteration, in program order. -/
inductive LoopEv where
  | setRE (e : Err)          -- a store to the sticky read-error field
  | publish                  -- cc.respch <- resp completed
  | setBR (flag : Bool)      -- cc.setBodyReading(flag)
deriving DecidableEq

/-- Return value of one read-loop iteration: the updated connection, the
`alive` flag after the iteration (the loop continues exactly when it is
`true`), the event trace, and whether the iteration is stuck blocking on a
full response slot (in which case `cc` is the state at the block point). -/
structure IterOut where
  cc : ClientConn
  alive : Bool
  evs : List LoopEv
  blocked : Bool
deriving DecidableEq

/-- One iteration of the body of `readLoop` (client.go lines 149-194),
entered with `alive = true`.  `rc` is the request received from `reqch`.
In source order: probe readability (failure stores `ErrServerClosedConn`
and breaks); receive `rc`; parse (failure stores the parse error and
breaks); compute `hasBody`; the last-exchange check may clear `alive` and
store `ErrServerClosedConn`; a bodyless response is skipped (`continue`);
otherwise the response is published, the body-in-progress flag set, and the
drain select decides how the iteration ends. -/
def readLoopIter (rc : Request) (inp : IterIn) (cc : ClientConn) : IterOut :=
  if inp.peekOk = false then
    { cc := setReadError Err.serverClosedConn cc
      alive := false
      evs := [LoopEv.setRE Err.serverClosedConn]
      blocked := false }
  else
    let cc1 : ClientConn := { cc with reqch := none }
    match inp.parse with
    | RespResult.fail e =>
      { cc := setReadError e cc1, alive := false
        evs := [LoopEv.setRE e], blocked := false }
    | RespResult.ok resp =>
      let hasBody := (rc.method != "HEAD") && (resp.contentLength != 0)
      let isLast := resp.close || rc.close || decide (resp.statusCode ≤ 199)
      let cc2 := if isLast then setReadError Err.serverClosedConn cc1 else cc1
      let alive1 := !isLast
      let evs1 := if isLast then [LoopEv.setRE Err.serverClosedConn] else ([] : List LoopEv)
      if hasBody = false then
        { cc := cc2, alive := alive1, evs := evs1, blocked := false }
      else
        match cc2.respch with
        | some _ => { cc := cc2, alive := alive1, evs := evs1, blocked := true }
        | none =>
          let cc3 : ClientConn := { cc2 with respch := some resp, bodyReading := true }
          let evs2 := evs1 ++ [LoopEv.publish, LoopEv.setBR true]
          match inp.drain with
          | DrainOutcome.bodyEOF b =>
            let alive2 := alive1 && b
            let cc4 := if b = false then setReadError Err.bodyLeftData cc3 else cc3
            let evs3 := if b = false then evs2 ++ [LoopEv.setRE Err.bodyLeftData] else evs2
            { cc := setBodyReading false cc4, alive := alive2
              evs := evs3 ++ [LoopEv.setBR false], blocked := false }
          | DrainOutcome.teardown =>
            { cc := setBodyReading false cc3, alive := false
              evs := evs2 ++ [LoopEv.setBR false], blocked := false }

/-- One caller-visible operation on a connection, used to quantify over
"any subsequent operation" in monotonicity statements. -/
inductive Op where
  | opWrite (wres : Option Err) (req : Request)
  | opRead (cancel : Option Err)
  | opIter (rc : Request) (inp : IterIn)
  | opHijack
  | opClose (connCloseRes : Option Err)

/-- The state transformation of one operation. -/
def step : Op → ClientConn → ClientConn
  | Op.opWrite wres req, cc => (write wres req cc).cc
  | Op.opRead cancel, cc => (read cancel cc).1
  | Op.opIter rc inp, cc => (readLoopIter rc inp cc).cc
  | Op.opHijack, cc => (Hijack cc).2
  | Op.opClose cres, cc => (Close cres cc).1

/-- The state after a sequence of operations. -/
def steps (ops : List Op) (cc : ClientConn) : ClientConn :=
  ops.foldl (fun s o => step o s) cc

/-! ## Helper lemmas -/

/-- A successful liveness check means both sticky errors are unset and the
transport is attached. -/
theorem ping_none_elim (cc : ClientConn) (h : Ping cc = none) :
    cc.re = none ∧ cc.we = none ∧ cc.conn ≠ none := by
  unfold Ping at h
  cases hre : cc.re <;> rw [hre] at h
  · cases hwe : cc.we <;> rw [hwe] at h
    · refine ⟨rfl, rfl, ?_⟩
      intro hc
      rw [if_pos hc] at h
      exact Option.noConfusion h
    · exact Option.noConfusion h
  · exact Option.noConfusion h

/-- `write` never touches the sticky read-error field. -/
theorem write_re_unchanged (wres : Option Err) (req : Request) (cc : ClientConn) :
    (write wres req cc).cc.re = cc.re := by
  obtain ⟨cn, rr, br, re, we, rq, rs, ch⟩ := cc
  obtain ⟨m, rcl⟩ := req
  cases wres <;> cases re <;> cases we <;> cases cn <;> cases br <;>
    cases rcl <;> cases rq <;> simp [write, waitForBody, Ping]

/-- `write` can only make the sticky write-error more defined. -/
theorem write_we_mono (wres : Option Err) (req : Request) (cc : ClientConn)
    (h : cc.we.isSome = true) : (write wres req cc).cc.we.isSome = true := by
  obtain ⟨cn, rr, br, re, we, rq, rs, ch⟩ := cc
  obtain ⟨m, rcl⟩ := req
  cases wres <;> cases re <;> cases we <;> cases cn <;> cases br <;>
    cases rcl <;> cases rq <;> simp_all [write, waitForBody, Ping]

/-- `read` never touches the sticky write-error field. -/
theorem read_we_unchanged (cancel : Option Err) (cc : ClientConn) :
    (read cancel cc).1.we = cc.we := by
  unfold read
  cases cancel <;> simp [setReadError]
  cases hq : cc.respch <;> simp [hq]

/-- `read` can only make the sticky read-error more defined. -/
theorem read_re_mono (cancel : Option Err) (cc : ClientConn)
    (h : cc.re.isSome = true) : (read cancel cc).1.re.isSome = true := by
  unfold read
  cases cancel <;> simp [setReadError]
  cases hq : cc.respch <;> simp [hq, h]

/-- A read-loop iteration never touches the sticky write-error field. -/
theorem readLoopIter_we_unchanged (rc : Request) (inp : IterIn) (cc : ClientConn) :
    (readLoopIter rc inp cc).cc.we = cc.we := by
  obtain ⟨cn, rr, br, re, we, rq, rs, ch⟩ := cc
  obtain ⟨m, rcl⟩ := rc
  obtain ⟨pk, parse, drain⟩ := inp
  cases pk
  · simp [readLoopIter, setReadError]
  · cases parse with
    | fail e => simp [readLoopIter, setReadError]
    | ok resp =>
      obtain ⟨st, clen, rspcl⟩ := resp
      by_cases hm : m = "HEAD" <;> by_cases hcl : clen = 0 <;>
        cases rcl <;> cases rspcl <;> cases rs <;>
        rcases drain with ⟨b⟩ | ⟨⟩ <;> (try cases b) <;>
        simp [readLoopIter, setReadError, setBodyReading, hm, hcl] <;>
        (try split) <;> (try split) <;> simp_all

/-- A read-loop iteration can only make the sticky read-error more
defined. -/
theorem readLoopIter_re_mono (rc : Request) (inp : IterIn) (cc : ClientConn)
    (h : cc.re.isSome = true) : (readLoopIter rc inp cc).cc.re.isSome = true := by
  obtain ⟨cn, rr, br, re, we, rq, rs, ch⟩ := cc
  obtain ⟨m, rcl⟩ := rc
  obtain ⟨pk, parse, drain⟩ := inp
  cases pk
  · simp [readLoopIter, setReadError]
  · cases parse with
    | fail e => simp [readLoopIter, setReadError]
    | ok resp =>
      obtain ⟨st, clen, rspcl⟩ := resp
      by_cases hm : m = "HEAD" <;> by_cases hcl : clen = 0 <;>
        cases rcl <;> cases rspcl <;> cases rs <;>
        rcases drain with ⟨b⟩ | ⟨⟩ <;> (try cases b) <;>
        simp [readLoopIter, setReadError, setBodyReading, hm, hcl] <;>
        (try split) <;> (try split) <;> simp_all

/-- `Hijack` and `Close` never touch the sticky error fields. -/
theorem hijack_close_errors_unchanged (cres : Option Err) (cc : ClientConn) :
    (Hijack cc).2.re = cc.re ∧ (Hijack cc).2.we = cc.we ∧
    (Close cres cc).1.re = cc.re ∧ (Close cres cc).1.we = cc.we := by
  refine ⟨rfl, rfl, ?_, ?_⟩ <;> unfold Close Hijack <;> simp only <;>
    cases hc : cc.conn <;> simp only <;>
    cases hch : cc.closech <;> simp

/-- When either sticky error is set, the liveness check fails. -/
theorem ping_isSome_of_sticky (cc : ClientConn)
    (h : cc.re.isSome = true ∨ cc.we.isSome = true) : (Ping cc).isSome = true := by
  unfold Ping
  cases hre : cc.re <;> simp only
  · cases hwe : cc.we <;> simp only
    · rcases h with h | h
      · rw [hre] at h; exact absurd h (by simp)
      · rw [hwe] at h; exact absurd h (by simp)
    · simp
  · simp

/-- One step preserves setness of both sticky error fields. -/
theorem step_sticky_mono (op : Op) (cc : ClientConn) :
    (cc.re.isSome = true → (step op cc).re.isSome = true) ∧
    (cc.we.isSome = true → (step op cc).we.isSome = true) := by
  cases op with
  | opWrite wres req =>
    exact ⟨fun h => by simp [step, write_re_unchanged, h],
           fun h => write_we_mono wres req cc h⟩
  | opRead cancel =>
    exact ⟨fun h => read_re_mono cancel cc h,
           fun h => by simp [step, read_we_unchanged, h]⟩
  | opIter rc inp =>
    exact ⟨fun h => readLoopIter_re_mono rc inp cc h,
           fun h => by simp [step, readLoopIter_we_unchanged, h]⟩
  | opHijack =>
    exact ⟨fun h => by simpa [step, Hijack] using h,
           fun h => by simpa [step, Hijack] using h⟩
  | opClose cres =>
    have h4 := hijack_close_errors_unchanged cres cc
    exact ⟨fun h => by simp [step, h4.2.2.1, h],
           fun h => by simp [step, h4.2.2.2, h]⟩

/-- A sequence of steps preserves setness of each sticky error field. -/
theorem steps_sticky_mono (ops : List Op) (cc : ClientConn) :
    (cc.re.isSome = true → (steps ops cc).re.isSome = true) ∧
    (cc.we.isSome = true → (steps ops cc).we.isSome = true) := by
  induction ops generalizing cc with
  | nil => exact ⟨id, id⟩
  | cons op rest ih =>
    have hstep := step_sticky_mono op cc
    exact ⟨fun h => (ih (step op cc)).1 (hstep.1 h),
           fun h => (ih (step op cc)).2 (hstep.2 h)⟩

/-- `write` pushes onto the request queue only on its success path. -/
theorem write_enqueue_success (wres : Option Err) (req : Request) (cc : ClientConn)
    (h : WEv.enqueue ∈ (write wres req cc).tr) : (write wres req cc).res = none := by
  obtain ⟨cn, rr, br, re, we, rq, rs, ch⟩ := cc
  obtain ⟨m, rcl⟩ := req
  cases wres <;> cases re <;> cases we <;> cases cn <;> cases br <;>
    cases rcl <;> cases rq <;> simp_all [write, waitForBody, Ping]

/-! ## Claim theorems -/

/-- C2 (code_bug): `Close` on a connection whose transport was already
detached by `Hijack` is supposed to signal the teardown channel and return
nil, but `NewClientConn` never initializes `closech`, so `close(cc.closech)`
is `close` of a nil channel, which panics. -/
theorem close_after_hijack_panics :
    (NewClientConn ⟨0⟩ none).closech = ChanState.nilChan ∧
    (Close none (Hijack (NewClientConn ⟨0⟩ none)).2).2 = CloseOut.panicked := by
  decide

/-- C3 (confirmed): a `write` that passes the liveness check while the
body-in-progress flag is set returns `ErrBodyWaitingRead`, leaves the
connection state (in particular the request queue) unchanged, and performs
no side effect: it neither serializes the request onto the transport nor
pushes it onto the request queue (empty event trace). -/
theorem write_body_pending (cc : ClientConn) (req : Request) (wres : Option Err)
    (h1 : Ping cc = none) (h2 : cc.bodyReading = true) :
    write wres req cc = ⟨cc, some Err.bodyWaitingRead, []⟩ := by
  unfold write
  rw [h1]
  simp [waitForBody, h2]

/-- Concrete connection in the draining state: fresh, with the
body-in-progress flag set. -/
def ccC3 : ClientConn := { NewClientConn ⟨0⟩ none with bodyReading := true }

/-- Witness for `write_body_pending` at a concrete draining connection. -/
theorem write_body_pending_w :
    Ping ccC3 = none ∧ ccC3.bodyReading = true ∧
    write none { method := "GET", close := false } ccC3 =
      ⟨ccC3, some Err.bodyWaitingRead, []⟩ :=
  ⟨by decide, by decide,
   write_body_pending ccC3 { method := "GET", close := false } none (by decide) (by decide)⟩

/-- C6 (corrected, amended part): a `read` whose cancellation signal fires
before a response arrives returns the cancellation error and records it as
the sticky read-error, and the liveness check on the resulting state fails
with that error. -/
theorem read_cancel_poisons (cc : ClientConn) (e : Err) :
    read (some e) cc = ({ cc with re := some e }, some (RespResult.fail e)) ∧
    Ping (read (some e) cc).1 = some e := by
  constructor
  · rfl
  · simp [read, setReadError, Ping]

/-- Connection poisoned by a cancelled `read` on a fresh connection. -/
def ccC6 : ClientConn := (read (some (Err.ctxErr 7)) (NewClientConn ⟨0⟩ none)).1

/-- Read-loop input in which the readability probe fails (the transport hit
end-of-stream). -/
def inpC6 : IterIn :=
  { peekOk := false
    parse := RespResult.fail (Err.externalErr 0)
    drain := DrainOutcome.teardown }

/-- C6 (counterexample): after a cancelled `read` records `ctxErr 7` as the
sticky read-error, the next read-loop probe failure (a step the background
loop takes on its own) overwrites it with `ErrServerClosedConn`; the
subsequent liveness check returns `ErrServerClosedConn`, not the
cancellation error, refuting "every subsequent liveness check fails with
that same error". -/
theorem c6_cancel_error_overwritten :
    Ping ccC6 = some (Err.ctxErr 7) ∧
    Ping (readLoopIter { method := "GET", close := false } inpC6 ccC6).cc =
      some Err.serverClosedConn ∧
    (some Err.serverClosedConn : Option Err) ≠ some (Err.ctxErr 7) := by
  decide

/-- C9 (corrected, amended part): on every connection — whether or not a
sticky error has been recorded — `Hijack` returns the transport and reader
and empties both fields, and a second call returns empty results and
changes nothing; and, provided no sticky error has been recorded, the
liveness check after detachment fails with the "closed" error. -/
theorem hijack_idempotent (cc : ClientConn) :
    (Hijack cc).1 = (cc.conn, cc.r) ∧
    (Hijack cc).2.conn = none ∧ (Hijack cc).2.r = none ∧
    (Hijack (Hijack cc).2).1 = (none, none) ∧
    (Hijack (Hijack cc).2).2 = (Hijack cc).2 ∧
    (cc.re = none → cc.we = none → Ping (Hijack cc).2 = some Err.errClosed) := by
  refine ⟨rfl, rfl, rfl, rfl, by simp [Hijack], fun h1 h2 => ?_⟩
  simp [Hijack, Ping, h1, h2]

/-- Fresh concrete connection for the `hijack_idempotent` witness. -/
def ccC9 : ClientConn := NewClientConn ⟨2⟩ none

/-- Witness for `hijack_idempotent` at a fresh connection, with the Ping
clause's hypotheses discharged there. -/
theorem hijack_idempotent_w :
    ccC9.re = none ∧ ccC9.we = none ∧
    ((Hijack ccC9).1 = (ccC9.conn, ccC9.r) ∧
     (Hijack ccC9).2.conn = none ∧ (Hijack ccC9).2.r = none ∧
     (Hijack (Hijack ccC9).2).1 = (none, none) ∧
     (Hijack (Hijack ccC9).2).2 = (Hijack ccC9).2 ∧
     Ping (Hijack ccC9).2 = some Err.errClosed) :=
  ⟨rfl, rfl, by
    obtain ⟨a, b, c, d, e, f⟩ := hijack_idempotent ccC9
    exact ⟨a, b, c, d, e, f rfl rfl⟩⟩

/-- Connection with a sticky read-error recorded by a cancelled `read`,
then detached by `Hijack`. -/
def ccC9c : ClientConn := (Hijack (read (some (Err.ctxErr 3)) (NewClientConn ⟨1⟩ none)).1).2

/-- C9 (counterexample): when a sticky read-error was recorded before the
detachment, the liveness check after `Hijack` returns that sticky error,
not the "closed" error, refuting "after detachment, every liveness check
fails with the closed error". -/
theorem c9_ping_not_closed_after_hijack :
    ccC9c.conn = none ∧ ccC9c.r = none ∧
    Ping ccC9c = some (Err.ctxErr 3) ∧
    (some (Err.ctxErr 3) : Option Err) ≠ some Err.errClosed := by
  decide

/-- C10 (confirmed): when serialization fails, `write` records the
serialization error as the sticky write-error and returns it, the request
queue is unchanged and nothing was enqueued; moreover, on every path of
`write`, an enqueue event implies that `write` returned success. -/
theorem write_serialize_error_no_enqueue (cc : ClientConn) (req : Request) (e : Err)
    (h1 : Ping cc = none) (h2 : cc.bodyReading = false) :
    (write (some e) req cc).res = some e ∧
    (write (some e) req cc).cc.we = some e ∧
    (write (some e) req cc).cc.reqch = cc.reqch ∧
    WEv.enqueue ∉ (write (some e) req cc).tr ∧
    ∀ wres2 req2 cc2, WEv.enqueue ∈ (write wres2 req2 cc2).tr →
      (write wres2 req2 cc2).res = none := by
  refine ⟨?_, ?_, ?_, ?_, fun wres2 req2 cc2 h => write_enqueue_success wres2 req2 cc2 h⟩ <;>
    (unfold write; rw [h1]; by_cases hc : req.close <;> simp [waitForBody, h2, hc])

/-- Witness for `write_serialize_error_no_enqueue` on a fresh connection
with a failing serializer. -/
theorem write_serialize_error_no_enqueue_w :
    Ping (NewClientConn ⟨0⟩ none) = none ∧
    (NewClientConn ⟨0⟩ none).bodyReading = false ∧
    ((write (some (Err.externalErr 5)) { method := "GET", close := false }
        (NewClientConn ⟨0⟩ none)).res = some (Err.externalErr 5) ∧
     (write (some (Err.externalErr 5)) { method := "GET", close := false }
        (NewClientConn ⟨0⟩ none)).cc.we = some (Err.externalErr 5) ∧
     (write (some (Err.externalErr 5)) { method := "GET", close := false }
        (NewClientConn ⟨0⟩ none)).cc.reqch = (NewClientConn ⟨0⟩ none).reqch ∧
     WEv.enqueue ∉ (write (some (Err.externalErr 5)) { method := "GET", close := false }
        (NewClientConn ⟨0⟩ none)).tr ∧
     ∀ wres2 req2 cc2, WEv.enqueue ∈ (write wres2 req2 cc2).tr →
       (write wres2 req2 cc2).res = none) :=
  ⟨by decide, by decide,
   write_serialize_error_no_enqueue (NewClientConn ⟨0⟩ none)
     { method := "GET", close := false } (Err.externalErr 5) (by decide) (by decide)⟩

/-- C1 (corrected, amended part): once either sticky error field holds a
non-nil error, no sequence of operations ever reverts either field to
unset, and every subsequent liveness check fails — it returns some sticky
error, though (because `setReadError` overwrites) not necessarily the
originally recorded value. -/
theorem sticky_error_monotone (ops : List Op) (cc : ClientConn)
    (h : cc.re.isSome = true ∨ cc.we.isSome = true) :
    (cc.re.isSome = true → (steps ops cc).re.isSome = true) ∧
    (cc.we.isSome = true → (steps ops cc).we.isSome = true) ∧
    (Ping (steps ops cc)).isSome = true := by
  have hs := steps_sticky_mono ops cc
  refine ⟨hs.1, hs.2, ping_isSome_of_sticky _ ?_⟩
  rcases h with h | h
  · exact Or.inl (hs.1 h)
  · exact Or.inr (hs.2 h)

/-- Connection whose sticky read-error was set to `ErrServerClosedConn` (as
the read loop does at a last exchange), used for the monotonicity
witness. -/
def ccC1w : ClientConn :=
  setReadError Err.serverClosedConn (NewClientConn ⟨0⟩ none)

/-- Witness for `sticky_error_monotone`: one `Hijack` step after the sticky
read-error was recorded. -/
theorem sticky_error_monotone_w :
    (ccC1w.re.isSome = true ∨ ccC1w.we.isSome = true) ∧
    ((ccC1w.re.isSome = true → (steps [Op.opHijack] ccC1w).re.isSome = true) ∧
     (ccC1w.we.isSome = true → (steps [Op.opHijack] ccC1w).we.isSome = true) ∧
     (Ping (steps [Op.opHijack] ccC1w)).isSome = true) :=
  ⟨Or.inl (by decide), sticky_error_monotone [Op.opHijack] ccC1w (Or.inl (by decide))⟩

/-- The request of the C1 counterexample iteration. -/
def rcC1 : Request := { method := "GET", close := false }

/-- Read-loop input of the C1 counterexample: the response announces
connection closure (so the loop stores `ErrServerClosedConn`), carries a
body, and the body is then abandoned before its end. -/
def inpC1 : IterIn :=
  { peekOk := true
    parse := RespResult.ok { statusCode := 200, contentLength := 5, close := true }
    drain := DrainOutcome.bodyEOF false }

/-- Result of the C1 counterexample iteration on a fresh connection. -/
def outC1 : IterOut := readLoopIter rcC1 inpC1 (NewClientConn ⟨0⟩ none)

/-- C1 (counterexample): within one read-loop iteration the sticky
read-error is first set to `ErrServerClosedConn` (last-exchange check) and
then overwritten with `ErrBodyLeftData` (abandoned body), so a subsequent
liveness check does not return the error value that was first recorded,
refuting "every subsequent call to Ping returns that same error value". -/
theorem c1_ping_not_same_error :
    LoopEv.setRE Err.serverClosedConn ∈ outC1.evs ∧
    Ping outC1.cc = some Err.bodyLeftData ∧
    (some Err.bodyLeftData : Option Err) ≠ some Err.serverClosedConn := by
  decide

/-- C4 (confirmed): with a readable transport and a successfully parsed
response, the iteration publishes onto the response queue exactly when the
pulled request's method is not HEAD and the response's content length is
not zero; when no body is expected the response queue and body-in-progress
flag are untouched, the iteration does not block, and the loop proceeds
(stays alive) unless the last-exchange check marked it for termination. -/
theorem readLoop_publish_iff_body (cc : ClientConn) (rc : Request) (resp : Response)
    (inp : IterIn)
    (hpeek : inp.peekOk = true) (hparse : inp.parse = RespResult.ok resp)
    (hresp : cc.respch = none) :
    (LoopEv.publish ∈ (readLoopIter rc inp cc).evs ↔
      (rc.method ≠ "HEAD" ∧ resp.contentLength ≠ 0)) ∧
    ((rc.method = "HEAD" ∨ resp.contentLength = 0) →
      (readLoopIter rc inp cc).cc.respch = cc.respch ∧
      (readLoopIter rc inp cc).cc.bodyReading = cc.bodyReading ∧
      (readLoopIter rc inp cc).blocked = false ∧
      (readLoopIter rc inp cc).alive =
        !(resp.close || rc.close || decide (resp.statusCode ≤ 199))) := by
  obtain ⟨pk, parse, drain⟩ := inp
  subst hpeek
  simp only at hparse
  subst hparse
  obtain ⟨cn, rr, br, re, we, rq, rs, ch⟩ := cc
  simp only at hresp
  subst hresp
  obtain ⟨m, rcl⟩ := rc
  obtain ⟨st, clen, rspcl⟩ := resp
  by_cases hm : m = "HEAD" <;> by_cases hcl : clen = 0 <;>
    cases rcl <;> cases rspcl <;>
    rcases drain with ⟨b⟩ | ⟨⟩ <;> (try cases b) <;>
    simp [readLoopIter, setReadError, setBodyReading, hm, hcl] <;>
    (try split) <;> (try split) <;> simp_all

/-- Fresh connection for the C4 witness. -/
def ccC4 : ClientConn := NewClientConn ⟨0⟩ none

/-- Read-loop input of the C4 witness: a parsed HEAD response. -/
def inpC4 : IterIn :=
  { peekOk := true
    parse := RespResult.ok { statusCode := 200, contentLength := 5, close := false }
    drain := DrainOutcome.bodyEOF true }

/-- The HEAD request of the C4 witness. -/
def rcC4 : Request := { method := "HEAD", close := false }

/-- Witness for `readLoop_publish_iff_body` at a HEAD exchange. -/
theorem readLoop_publish_iff_body_w :
    inpC4.peekOk = true ∧
    inpC4.parse = RespResult.ok { statusCode := 200, contentLength := 5, close := false } ∧
    ccC4.respch = none ∧
    ((LoopEv.publish ∈ (readLoopIter rcC4 inpC4 ccC4).evs ↔
       (rcC4.method ≠ "HEAD" ∧
        ({ statusCode := 200, contentLength := 5, close := false } : Response).contentLength ≠ 0)) ∧
     ((rcC4.method = "HEAD" ∨
       ({ statusCode := 200, contentLength := 5, close := false } : Response).contentLength = 0) →
       (readLoopIter rcC4 inpC4 ccC4).cc.respch = ccC4.respch ∧
       (readLoopIter rcC4 inpC4 ccC4).cc.bodyReading = ccC4.bodyReading ∧
       (readLoopIter rcC4 inpC4 ccC4).blocked = false ∧
       (readLoopIter rcC4 inpC4 ccC4).alive =
         !(({ statusCode := 200, contentLength := 5, close := false } : Response).close ||
           rcC4.close ||
           decide (({ statusCode := 200, contentLength := 5, close := false } : Response).statusCode ≤ 199)))) :=
  ⟨rfl, rfl, rfl,
   readLoop_publish_iff_body ccC4 rcC4
     { statusCode := 200, contentLength := 5, close := false } inpC4 rfl rfl rfl⟩

/-- C5 (corrected, amended part): when the drain outcome reports the body
was not fully consumed, the iteration ends with the body-in-progress flag
cleared, the loop marked for termination, and the sticky read-error equal
to `ErrBodyLeftData` — unconditionally, even when the last-exchange check
of the same iteration had already stored `ErrServerClosedConn` (the store
overwrites it). -/
theorem drain_abandon_sets_bodyLeftData (cc : ClientConn) (rc : Request) (resp : Response)
    (inp : IterIn)
    (hpeek : inp.peekOk = true) (hparse : inp.parse = RespResult.ok resp)
    (hresp : cc.respch = none)
    (hm : rc.method ≠ "HEAD") (hcl : resp.contentLength ≠ 0)
    (hdrain : inp.drain = DrainOutcome.bodyEOF false) :
    (readLoopIter rc inp cc).cc.bodyReading = false ∧
    (readLoopIter rc inp cc).alive = false ∧
    (readLoopIter rc inp cc).cc.re = some Err.bodyLeftData := by
  obtain ⟨pk, parse, drain⟩ := inp
  subst hpeek
  simp only at hparse hdrain
  subst hparse
  subst hdrain
  obtain ⟨cn, rr, br, re, we, rq, rs, ch⟩ := cc
  simp only at hresp
  subst hresp
  obtain ⟨m, rcl⟩ := rc
  obtain ⟨st, clen, rspcl⟩ := resp
  cases rcl <;> cases rspcl <;>
    simp [readLoopIter, setReadError, setBodyReading, hm, hcl] <;>
    (try split) <;> (try split) <;> simp_all

/-- Fresh connection for the C5 witness. -/
def ccC5w : ClientConn := NewClientConn ⟨0⟩ none

/-- The request of the C5 witness. -/
def rcC5w : Request := { method := "POST", close := false }

/-- Read-loop input of the C5 witness: a body-bearing response whose body
is then abandoned before its end. -/
def inpC5w : IterIn :=
  { peekOk := true
    parse := RespResult.ok { statusCode := 200, contentLength := -1, close := false }
    drain := DrainOutcome.bodyEOF false }

/-- Witness for `drain_abandon_sets_bodyLeftData`. -/
theorem drain_abandon_sets_bodyLeftData_w :
    inpC5w.peekOk = true ∧
    inpC5w.parse = RespResult.ok { statusCode := 200, contentLength := -1, close := false } ∧
    ccC5w.respch = none ∧
    rcC5w.method ≠ "HEAD" ∧
    ({ statusCode := 200, contentLength := -1, close := false } : Response).contentLength ≠ 0 ∧
    inpC5w.drain = DrainOutcome.bodyEOF false ∧
    ((readLoopIter rcC5w inpC5w ccC5w).cc.bodyReading = false ∧
     (readLoopIter rcC5w inpC5w ccC5w).alive = false ∧
     (readLoopIter rcC5w inpC5w ccC5w).cc.re = some Err.bodyLeftData) :=
  ⟨rfl, rfl, rfl, by decide, by decide, rfl,
   drain_abandon_sets_bodyLeftData ccC5w rcC5w
     { statusCode := 200, contentLength := -1, close := false } inpC5w
     rfl rfl rfl (by decide) (by decide) rfl⟩

/-- The request of the C5 counterexample: it asks to close the connection
after the exchange, so the last-exchange check fires. -/
def rcC5 : Request := { method := "GET", close := true }

/-- Read-loop input of the C5 counterexample: body-bearing response whose
body is abandoned before its end. -/
def inpC5 : IterIn :=
  { peekOk := true
    parse := RespResult.ok { statusCode := 200, contentLength := 5, close := false }
    drain := DrainOutcome.bodyEOF false }

/-- Result of the C5 counterexample iteration on a fresh connection. -/
def outC5 : IterOut := readLoopIter rcC5 inpC5 (NewClientConn ⟨0⟩ none)

/-- C5 (counterexample): the last-exchange check of this iteration stores
`ErrServerClosedConn`, and the abandoned-body handling then stores
`ErrBodyLeftData` over it — the already-set error IS overwritten, refuting
"set the sticky read-error to the data-left-in-buffer sentinel only if it
was not already set by the last-exchange determination". -/
theorem c5_last_exchange_error_overwritten :
    LoopEv.setRE Err.serverClosedConn ∈ outC5.evs ∧
    outC5.cc.re = some Err.bodyLeftData ∧
    outC5.cc.re ≠ some Err.serverClosedConn := by
  decide

/-- C7 (confirmed): for a request that declares connection closure, `write`
(after passing the liveness and body checks) first stores `ErrPersistEOF`
into the sticky write-error and only then serializes the request (the event
trace begins with that store followed by the serialization), leaves the
sticky write-error set, returns success when serialization succeeds, and
every later `write` on the resulting connection fails at the liveness check
without serializing anything. -/
theorem write_close_preemptively_poisons (cc : ClientConn) (req : Request) (wres : Option Err)
    (h1 : Ping cc = none) (h2 : cc.bodyReading = false) (h3 : req.close = true) :
    (∃ rest, (write wres req cc).tr =
      WEv.setWE Err.persistEOF :: WEv.serialize :: rest) ∧
    (write wres req cc).cc.we.isSome = true ∧
    (wres = none → (write wres req cc).cc.we = some Err.persistEOF ∧
      (write wres req cc).res = none) ∧
    ∀ wres2 req2, (write wres2 req2 (write wres req cc).cc).res.isSome = true ∧
      (write wres2 req2 (write wres req cc).cc).tr = [] := by
  obtain ⟨hre, hwe, hconn⟩ := ping_none_elim cc h1
  cases wres with
  | some e =>
    have hw : write (some e) req cc =
        ⟨{ cc with we := some e }, some e,
         [WEv.setWE Err.persistEOF, WEv.serialize, WEv.setWE e]⟩ := by
      unfold write
      rw [h1]
      simp [waitForBody, h2, h3]
    rw [hw]
    refine ⟨⟨[WEv.setWE e], rfl⟩, by simp, by simp, ?_⟩
    intro wres2 req2
    have hp2 : Ping { cc with we := some e } = some e := by simp [Ping, hre]
    unfold write
    rw [hp2]
    exact ⟨rfl, rfl⟩
  | none =>
    cases hq : cc.reqch with
    | none =>
      have hw : write none req cc =
          ⟨{ cc with we := some Err.persistEOF, reqch := some req }, none,
           [WEv.setWE Err.persistEOF, WEv.serialize, WEv.enqueue]⟩ := by
        unfold write
        rw [h1]
        simp [waitForBody, h2, h3, hq]
      rw [hw]
      refine ⟨⟨[WEv.enqueue], rfl⟩, by simp, by simp, ?_⟩
      intro wres2 req2
      have hp2 : Ping { cc with we := some Err.persistEOF, reqch := some req } =
          some Err.persistEOF := by simp [Ping, hre]
      unfold write
      rw [hp2]
      exact ⟨rfl, rfl⟩
    | some r0 =>
      have hw : write none req cc =
          ⟨{ cc with we := some Err.persistEOF }, none,
           [WEv.setWE Err.persistEOF, WEv.serialize, WEv.blockedSend]⟩ := by
        unfold write
        rw [h1]
        simp [waitForBody, h2, h3, hq]
      rw [hw]
      refine ⟨⟨[WEv.blockedSend], rfl⟩, by simp, by simp, ?_⟩
      intro wres2 req2
      have hp2 : Ping { cc with we := some Err.persistEOF } =
          some Err.persistEOF := by simp [Ping, hre]
      unfold write
      rw [hp2]
      exact ⟨rfl, rfl⟩

/-- Fresh connection for the C7 witness. -/
def ccC7 : ClientConn := NewClientConn ⟨0⟩ none

/-- The final request of the C7 witness. -/
def reqC7 : Request := { method := "GET", close := true }

/-- Witness for `write_close_preemptively_poisons` with a successful
serialization. -/
theorem write_close_preemptively_poisons_w :
    Ping ccC7 = none ∧ ccC7.bodyReading = false ∧ reqC7.close = true ∧
    ((∃ rest, (write none reqC7 ccC7).tr =
       WEv.setWE Err.persistEOF :: WEv.serialize :: rest) ∧
     (write none reqC7 ccC7).cc.we.isSome = true ∧
     ((none : Option Err) = none → (write none reqC7 ccC7).cc.we = some Err.persistEOF ∧
       (write none reqC7 ccC7).res = none) ∧
     ∀ wres2 req2, (write wres2 req2 (write none reqC7 ccC7).cc).res.isSome = true ∧
       (write wres2 req2 (write none reqC7 ccC7).cc).tr = []) :=
  ⟨by decide, by decide, by decide,
   write_close_preemptively_poisons ccC7 reqC7 none (by decide) (by decide) (by decide)⟩

/-- C8 (confirmed): with a readable transport and a successfully parsed
response, the iteration judges the exchange the last usable one exactly
when the response signals closure, or the request signaled closure, or the
status code is at most 199: in that case the loop is marked for termination
(`alive = false` after the iteration) and `ErrServerClosedConn` is stored
into the sticky read-error; otherwise no store of `ErrServerClosedConn`
happens in the iteration. -/
theorem readLoop_last_exchange (cc : ClientConn) (rc : Request) (resp : Response)
    (inp : IterIn)
    (hpeek : inp.peekOk = true) (hparse : inp.parse = RespResult.ok resp)
    (hresp : cc.respch = none) :
    ((resp.close || rc.close || decide (resp.statusCode ≤ 199)) = true →
      (readLoopIter rc inp cc).alive = false ∧
      LoopEv.setRE Err.serverClosedConn ∈ (readLoopIter rc inp cc).evs) ∧
    ((resp.close || rc.close || decide (resp.statusCode ≤ 199)) = false →
      LoopEv.setRE Err.serverClosedConn ∉ (readLoopIter rc inp cc).evs) := by
  obtain ⟨pk, parse, drain⟩ := inp
  subst hpeek
  simp only at hparse
  subst hparse
  obtain ⟨cn, rr, br, re, we, rq, rs, ch⟩ := cc
  simp only at hresp
  subst hresp
  obtain ⟨m, rcl⟩ := rc
  obtain ⟨st, clen, rspcl⟩ := resp
  by_cases hm : m = "HEAD" <;> by_cases hcl : clen = 0 <;>
    by_cases hst : st ≤ 199 <;>
    cases rcl <;> cases rspcl <;>
    rcases drain with ⟨b⟩ | ⟨⟩ <;> (try cases b) <;>
    simp [readLoopIter, setReadError, setBodyReading, hm, hcl, hst]

/-- Fresh connection for the C8 witness. -/
def ccC8 : ClientConn := NewClientConn ⟨0⟩ none

/-- The request of the C8 witness. -/
def rcC8 : Request := { method := "GET", close := false }

/-- Read-loop input of the C8 witness: the response announces connection
closure and its body is then read to completion. -/
def inpC8 : IterIn :=
  { peekOk := true
    parse := RespResult.ok { statusCode := 200, contentLength := 5, close := true }
    drain := DrainOutcome.bodyEOF true }

/-- Witness for `readLoop_last_exchange` at an exchange whose response
signals connection closure. -/
theorem readLoop_last_exchange_w :
    inpC8.peekOk = true ∧
    inpC8.parse = RespResult.ok { statusCode := 200, contentLength := 5, close := true } ∧
    ccC8.respch = none ∧
    (((({ statusCode := 200, contentLength := 5, close := true } : Response).close ||
        rcC8.close ||
        decide (({ statusCode := 200, contentLength := 5, close := true } : Response).statusCode ≤ 199)) = true →
       (readLoopIter rcC8 inpC8 ccC8).alive = false ∧
       LoopEv.setRE Err.serverClosedConn ∈ (readLoopIter rcC8 inpC8 ccC8).evs) ∧
     ((({ statusCode := 200, contentLength := 5, close := true } : Response).close ||
        rcC8.close ||
        decide (({ statusCode := 200, contentLength := 5, close := true } : Response).statusCode ≤ 199)) = false →
       LoopEv.setRE Err.serverClosedConn ∉ (readLoopIter rcC8 inpC8 ccC8).evs)) :=
  ⟨rfl, rfl, rfl,
   readLoop_last_exchange ccC8 rcC8
     { statusCode := 200, contentLength := 5, close := true } inpC8 rfl rfl rfl⟩

end HttpClientUtil
